import Mathlib

/-!
Verification of the Device/PreparedModel execution-dispatch layer of the
NeuralNetworks runtime (runtime/Manager.cpp), as a shallow embedding in Lean.

Machine integers are modelled as `Nat` with explicit `% 2^32` at the points
where the C++ code performs a narrowing `static_cast<uint32_t>`. Fallible
backend calls are modelled by passing the backend's response (transport
success flag and application status) as explicit arguments. Code guarded by
`#ifdef NN_DEBUGGABLE` is debug-build only and is not part of the embedding.
-/

namespace NNRT

/-- HAL `ErrorStatus` values used by Manager.cpp (from the NN HAL 1.0/1.2
interface types consumed via HalInterfaces.h). -/
inductive ErrorStatus : Type
  | NONE
  | DEVICE_UNAVAILABLE
  | GENERAL_FAILURE
  | OUTPUT_INSUFFICIENT_SIZE
  | INVALID_ARGUMENT
  deriving DecidableEq, Repr

/-- `ANEURALNETWORKS_NO_ERROR` from the `ResultCode` enum in NeuralNetworks.h. -/
def ANEURALNETWORKS_NO_ERROR : Int := 0

/-- `ANEURALNETWORKS_BAD_DATA` from the `ResultCode` enum in NeuralNetworks.h. -/
def ANEURALNETWORKS_BAD_DATA : Int := 4

/-- `ANEURALNETWORKS_OP_FAILED` from the `ResultCode` enum in NeuralNetworks.h. -/
def ANEURALNETWORKS_OP_FAILED : Int := 5

/-- `ANEURALNETWORKS_UNMAPPABLE` from the `ResultCode` enum in NeuralNetworks.h. -/
def ANEURALNETWORKS_UNMAPPABLE : Int := 7

/-- Modelled from the spec: `convertErrorStatusToResultCode` lives in
runtime/Utils.cpp, which is not among the provided sources. The spec's error
handling design says backend-reported errors are "surfaced as OperationFailed
to the caller; the caller never sees raw backend-specific status codes", and a
success status is NoError. -/
def convertErrorStatusToResultCode (status : ErrorStatus) : Int :=
  if status = ErrorStatus.NONE then ANEURALNETWORKS_NO_ERROR else ANEURALNETWORKS_OP_FAILED

/-!
## Capability query: DriverDevice::getSupportedOperations (Manager.cpp:191-216)

The backend call `mInterface->getSupportedOperations(metaModel)` is modelled by
its returned pair `(status, supportedOperations)`. The graph is represented by
its operation count (`hidlModel.operations.size()`), the only attribute this
function reads on the non-debug path.
-/

/-- Embedding of `DriverDevice::getSupportedOperations`: if the backend call
returns a non-success status, or a vector of the wrong length, the output is
resized to the operation count and filled with `false`; otherwise the backend
vector is moved into the output. -/
def DriverDevice.getSupportedOperations (numOperations : Nat)
    (backend : ErrorStatus × List Bool) : List Bool :=
  let status := backend.1
  let supportedOperations := backend.2
  if status ≠ ErrorStatus.NONE then
    List.replicate numOperations false
  else if supportedOperations.length ≠ numOperations then
    List.replicate numOperations false
  else
    supportedOperations

/-!
## Pointer-argument pool layout (Manager.cpp:313-356)
-/

/-- `ModelArgumentInfo::state` values relevant to Manager.cpp. -/
inductive ArgState : Type
  | POINTER
  | MEMORY
  | HAS_NO_VALUE
  deriving DecidableEq, Repr

/-- `DataLocation` (poolIndex, offset, length), all `uint32_t` in the source. -/
structure DataLocation where
  poolIndex : Nat
  offset : Nat
  length : Nat
  deriving DecidableEq, Repr

/-- The slice of `ModelArgumentInfo` read and written by Manager.cpp: the
state tag, the location, and the caller-owned buffer (modelled by its byte
contents; the source holds a `void*`). -/
structure ModelArgumentInfo where
  state : ArgState
  locationAndLength : DataLocation
  buffer : List Nat
  deriving DecidableEq, Repr

/-- Modelled from the spec: `alignBytesNeeded` lives in runtime/Utils.cpp,
which is not among the provided sources. The spec describes the rule as
"pad the running offset up to the argument's natural alignment boundary
(simple needed = align(offset, length) rule)": the natural alignment of a
block of `length` bytes is 1 for lengths below 2, 2 for lengths below 4, and
4 otherwise. -/
def naturalAlignment (length : Nat) : Nat :=
  if length < 2 then 1 else if length < 4 then 2 else 4

/-- Modelled from the spec: the number of padding bytes needed to bring
`index` up to the natural alignment boundary of a block of `length` bytes. -/
def alignBytesNeeded (index length : Nat) : Nat :=
  (naturalAlignment length - index % naturalAlignment length) % naturalAlignment length

/-- The `for (auto& info : *args)` scan of `allocatePointerArgumentsToPool`,
written as structural recursion with the running `total` (an `int64_t`, here a
`Nat`: it only ever grows) as accumulator. For a `POINTER` argument the
running total is first padded (`total += alignBytesNeeded(static_cast<uint32_t>(total),
loc.length)`), then `loc.poolIndex = nextPoolIndex` and
`loc.offset = static_cast<uint32_t>(total)` are assigned, then the total
advances by `loc.length`. Non-pointer arguments are untouched. Returns the
final total and the updated argument list. -/
def layoutPointerArguments (nextPoolIndex : Nat) :
    Nat → List ModelArgumentInfo → Nat × List ModelArgumentInfo
  | total, [] => (total, [])
  | total, info :: rest =>
    if info.state = ArgState.POINTER then
      let len := info.locationAndLength.length
      let t1 := total + alignBytesNeeded (total % 2 ^ 32) len
      let info' : ModelArgumentInfo :=
        { info with locationAndLength :=
            { info.locationAndLength with poolIndex := nextPoolIndex, offset := t1 % 2 ^ 32 } }
      let r := layoutPointerArguments nextPoolIndex (t1 + len) rest
      (r.1, info' :: r.2)
    else
      let r := layoutPointerArguments nextPoolIndex total rest
      (r.1, info :: r.2)

/-- Result of `allocatePointerArgumentsToPool`: the returned result code, the
created pool (its byte size) if any, the tracker size after the call
(`memories->add` appends exactly when a pool is created), and the updated
argument list. -/
structure AllocResult where
  code : Int
  pool : Option Nat
  memoriesSize : Nat
  args : List ModelArgumentInfo
  deriving Repr

/-- Embedding of `allocatePointerArgumentsToPool` (Manager.cpp:325-356).
`ashmemCreate` models the result code of `MemoryAshmem::create(total)` (its
pool handle is abstracted to the requested size). `nextPoolIndex` is
`memories->size()` captured at entry. After the scan: a total above
`0xFFFFFFFF` fails with `ANEURALNETWORKS_BAD_DATA`; a zero total succeeds with
no pool; otherwise the pool is created (propagating a creation failure) and
appended to the tracker. -/
def allocatePointerArgumentsToPool (ashmemCreate : Nat → Int) (memoriesSize : Nat)
    (args : List ModelArgumentInfo) : AllocResult :=
  let nextPoolIndex := memoriesSize
  let scan := layoutPointerArguments nextPoolIndex 0 args
  let total := scan.1
  if total > 0xFFFFFFFF then
    ⟨ANEURALNETWORKS_BAD_DATA, none, memoriesSize, scan.2⟩
  else if total = 0 then
    ⟨ANEURALNETWORKS_NO_ERROR, none, memoriesSize, scan.2⟩
  else
    let n := ashmemCreate total
    if n ≠ ANEURALNETWORKS_NO_ERROR then
      ⟨n, none, memoriesSize, scan.2⟩
    else
      ⟨ANEURALNETWORKS_NO_ERROR, some total, memoriesSize + 1, scan.2⟩

/-- The locations of the `POINTER`-state arguments of a list, in order. -/
def pointerLocs (args : List ModelArgumentInfo) : List DataLocation :=
  (args.filter (fun info => info.state = ArgState.POINTER)).map
    (fun info => info.locationAndLength)

/-!
## Compilation: prepareModelCheck and DriverDevice::prepareModel
(Manager.cpp:260-306)

The compiled handle returned by the backend (`VersionedIPreparedModel`
pointer) is abstracted to a `Nat`; `none` models a null pointer.
-/

/-- Embedding of `prepareModelCheck` (Manager.cpp:260-279). The output
parameter is written `none` first (`*preparedModelOut = nullptr`), so every
early return leaves it null; a non-success status or a null handle yields
`ANEURALNETWORKS_OP_FAILED`, otherwise a `DriverPreparedModel` wrapping the
handle is stored and `ANEURALNETWORKS_NO_ERROR` returned. The pair returned
here is (result code, final value of `*preparedModelOut`). -/
def prepareModelCheck (status : ErrorStatus) (preparedModel : Option Nat) :
    Int × Option Nat :=
  if status ≠ ErrorStatus.NONE then
    (ANEURALNETWORKS_OP_FAILED, none)
  else
    match preparedModel with
    | none => (ANEURALNETWORKS_OP_FAILED, none)
    | some handle => (ANEURALNETWORKS_NO_ERROR, some handle)

/-- Embedding of `DriverDevice::prepareModel` (Manager.cpp:281-292): the
backend call `mInterface->prepareModel(...)` is modelled by its returned
`(status, localPreparedModel)` pair, which is handed to `prepareModelCheck`. -/
def DriverDevice.prepareModel (backend : ErrorStatus × Option Nat) : Int × Option Nat :=
  prepareModelCheck backend.1 backend.2

/-- Embedding of `DriverDevice::prepareModelFromCache` (Manager.cpp:294-306):
identical post-processing of the backend's `(status, localPreparedModel)`. -/
def DriverDevice.prepareModelFromCache (backend : ErrorStatus × Option Nat) :
    Int × Option Nat :=
  prepareModelCheck backend.1 backend.2

/-!
## Device cache-file bookkeeping (Manager.cpp:53-57 and 169-183)
-/

/-- `Constant::MAX_NUMBER_OF_CACHE_FILES` from the NN HAL 1.2 types consumed
via HalInterfaces.h (not among the provided sources; the spec calls it the
"fixed maximum" bound on each cache-file count). Its value is 32. -/
def MAX_NUMBER_OF_CACHE_FILES : Nat := 32

/-- Embedding of the cache-file portion of DriverDevice's init step
(Manager.cpp:169-183): `mNumCacheFiles` is set from the backend's
`getNumberOfCacheFilesNeeded` reply, collapsed to `(0, 0)` when the call
returns a non-success status, and then collapsed to `(0, 0)` when either
count exceeds `MAX_NUMBER_OF_CACHE_FILES`. -/
def DriverDevice.clampNumCacheFiles (status : ErrorStatus) (reported : Nat × Nat) :
    Nat × Nat :=
  let numCacheFiles := if status ≠ ErrorStatus.NONE then (0, 0) else reported
  if MAX_NUMBER_OF_CACHE_FILES < numCacheFiles.1 ∨
      MAX_NUMBER_OF_CACHE_FILES < numCacheFiles.2 then
    (0, 0)
  else
    numCacheFiles

/-- Embedding of `Device::isCachingSupported` (Manager.cpp:53-57): caching is
supported iff either of numModelCache or numDataCache is greater than 0. -/
def Device.isCachingSupported (numCacheFiles : Nat × Nat) : Bool :=
  decide (0 < numCacheFiles.1) || decide (0 < numCacheFiles.2)

/-!
## DriverPreparedModel::execute (Manager.cpp:367-511)

The backend interactions of one `execute` call are collected in `ExecEnv`:
the argument lists and tracker size at entry, the result code behaviour of
`MemoryAshmem::create`, the burst controller (absent, or its `tryCompute`
reply), the process-wide `syncExecHal` toggle, the synchronous call's reply,
the asynchronous launch's transport flag and status, the result the backend
eventually delivers to the callback on a successful asynchronous launch, and
the bytes the device wrote into the output pool.

The observable outcome is an `ExecuteTrace`: the returned result code, the
final value of `*synchronizationCallback`, which backend entry points were
invoked, whether the wait and the output copy-back happened, the value held
by the completion signal, and the final contents of the caller-owned output
buffers.
-/

/-- `Timing` (uint64 pair) as reported with an execution result. -/
structure Timing where
  timeOnDevice : Nat
  timeInDriver : Nat
  deriving DecidableEq, Repr

/-- One (status, outputShapes, timing) triple as delivered to an
`ExecutionCallback`. Output shapes are abstracted to dimension vectors. -/
structure ExecutionResult where
  status : ErrorStatus
  outputShapes : List (List Nat)
  timing : Timing
  deriving DecidableEq, Repr

/-- The backend behaviour visible to one `DriverPreparedModel::execute` call. -/
structure ExecEnv where
  inputs : List ModelArgumentInfo
  outputs : List ModelArgumentInfo
  memoriesSize : Nat
  ashmemCreate : Nat → Int
  burst : Option (ExecutionResult × Bool)
  syncExecHal : Bool
  syncResult : ExecutionResult
  asyncLaunchIsOk : Bool
  asyncLaunchStatus : ErrorStatus
  asyncResult : ExecutionResult
  outputPool : Nat → Nat

/-- The observable outcome of one `DriverPreparedModel::execute` call. -/
structure ExecuteTrace where
  code : Int
  syncCallback : Option ExecutionResult
  syncInvoked : Bool
  asyncInvoked : Bool
  waited : Bool
  outputsCopiedBack : Bool
  notified : Option ExecutionResult
  outputBuffers : List (List Nat)
  deriving Repr

/-- The output copy-back loop (Manager.cpp:496-505): for every output argument
in `POINTER` state, `loc.length` bytes are copied from the output pool at
`loc.offset` back into the caller-owned buffer. Other buffers are untouched. -/
def copyBackOutputs (outputPool : Nat → Nat) (outputs : List ModelArgumentInfo) :
    List (List Nat) :=
  outputs.map (fun info =>
    if info.state = ArgState.POINTER then
      (List.range info.locationAndLength.length).map
        (fun j => outputPool (info.locationAndLength.offset + j))
    else
      info.buffer)

/-- Steps 5-8 of `execute` after a result is available on the completion
signal (Manager.cpp:479-510): wait, read the status; a non-success status
equal to `OUTPUT_INSUFFICIENT_SIZE` hands the callback back with
`ANEURALNETWORKS_NO_ERROR`; any other non-success status converts to a
failure code with a null callback; success copies the pointer outputs back
and hands the callback back with `ANEURALNETWORKS_NO_ERROR`. (`getStatus` on
the in-process callback object has no transport failure.) `env.outputs` has
already been rewritten by the layout scan when this runs. -/
def finishExecute (env : ExecEnv) (outputs : List ModelArgumentInfo)
    (outputPoolCreated : Bool) (syncInvoked asyncInvoked : Bool)
    (res : ExecutionResult) : ExecuteTrace :=
  if res.status ≠ ErrorStatus.NONE then
    if res.status = ErrorStatus.OUTPUT_INSUFFICIENT_SIZE then
      { code := ANEURALNETWORKS_NO_ERROR, syncCallback := some res,
        syncInvoked := syncInvoked, asyncInvoked := asyncInvoked,
        waited := true, outputsCopiedBack := false, notified := some res,
        outputBuffers := outputs.map (fun info => info.buffer) }
    else
      { code := convertErrorStatusToResultCode res.status, syncCallback := none,
        syncInvoked := syncInvoked, asyncInvoked := asyncInvoked,
        waited := true, outputsCopiedBack := false, notified := some res,
        outputBuffers := outputs.map (fun info => info.buffer) }
  else
    { code := ANEURALNETWORKS_NO_ERROR, syncCallback := some res,
      syncInvoked := syncInvoked, asyncInvoked := asyncInvoked,
      waited := true,
      outputsCopiedBack := outputPoolCreated,
      notified := some res,
      outputBuffers :=
        if outputPoolCreated then copyBackOutputs env.outputPool outputs
        else outputs.map (fun info => info.buffer) }

/-- The `if (!burstCompute || burstFallback)` block of `execute`
(Manager.cpp:448-476) followed by the epilogue: per the process-wide
`syncExecHal` toggle, either `executeSynchronously` runs and its triple is
notified to the callback, or the asynchronous `execute` is launched — a
launch whose transport fails or whose status is non-success makes `execute`
return immediately (`convertErrorStatusToResultCode` of the status when
transported, `ANEURALNETWORKS_OP_FAILED` otherwise) with the callback
out-parameter still null; a successful launch leads to the backend's eventual
callback result being waited on. -/
def syncOrAsyncDispatch (env : ExecEnv) (outputs : List ModelArgumentInfo)
    (outputPoolCreated : Bool) : ExecuteTrace :=
  if env.syncExecHal then
    finishExecute env outputs outputPoolCreated true false env.syncResult
  else if env.asyncLaunchIsOk = false ∨ env.asyncLaunchStatus ≠ ErrorStatus.NONE then
    { code :=
        if env.asyncLaunchIsOk then
          convertErrorStatusToResultCode env.asyncLaunchStatus
        else ANEURALNETWORKS_OP_FAILED,
      syncCallback := none, syncInvoked := false, asyncInvoked := true,
      waited := false, outputsCopiedBack := false, notified := none,
      outputBuffers := outputs.map (fun info => info.buffer) }
  else
    finishExecute env outputs outputPoolCreated false true env.asyncResult

/-- Embedding of `DriverPreparedModel::execute` (Manager.cpp:367-511).
`*synchronizationCallback = nullptr` is the trace's default on every early
return. The two pool layouts run first (`NN_RETURN_IF_ERROR` propagates their
codes); then the burst path, if a controller was supplied, tries
`tryCompute` and notifies the callback with its result unless it requested a
fallback; then, when no burst ran or the burst fell back,
`syncOrAsyncDispatch` runs; finally the wait / status interpretation / output
copy-back of `finishExecute`. The `MeasureTiming` argument, the input
materialization memcpy loop, and the burst `memoryIds` bookkeeping do not
affect control flow or the outputs and are not modelled. -/
def DriverPreparedModel.execute (env : ExecEnv) : ExecuteTrace :=
  let a1 := allocatePointerArgumentsToPool env.ashmemCreate env.memoriesSize env.inputs
  if a1.code ≠ ANEURALNETWORKS_NO_ERROR then
    { code := a1.code, syncCallback := none, syncInvoked := false,
      asyncInvoked := false, waited := false, outputsCopiedBack := false,
      notified := none,
      outputBuffers := env.outputs.map (fun info => info.buffer) }
  else
    let a2 := allocatePointerArgumentsToPool env.ashmemCreate a1.memoriesSize env.outputs
    if a2.code ≠ ANEURALNETWORKS_NO_ERROR then
      { code := a2.code, syncCallback := none, syncInvoked := false,
        asyncInvoked := false, waited := false, outputsCopiedBack := false,
        notified := none,
        outputBuffers := a2.args.map (fun info => info.buffer) }
    else
      let outputPoolCreated := a2.pool.isSome
      match env.burst with
      | some (burstRes, fallback) =>
        if fallback = false then
          finishExecute env a2.args outputPoolCreated false false burstRes
        else
          syncOrAsyncDispatch env a2.args outputPoolCreated
      | none => syncOrAsyncDispatch env a2.args outputPoolCreated

/-!
## DeviceManager discovery (Manager.cpp:717-761)
-/

/-- A registered device: a driver device (by service name) or the CPU
reference device singleton (`CpuDevice::get()`). -/
inductive Dev : Type
  | driver (name : String)
  | cpu
  deriving DecidableEq, Repr

/-- Embedding of `DeviceManager::getCpuDevice` (Manager.cpp:717-719): the
`CpuDevice` singleton. -/
def DeviceManager.getCpuDevice : Dev := Dev.cpu

/-- The devices added by the `listManifestByInterface` callback and
`registerDevice` (Manager.cpp:741-751, 756-761): for each advertised name,
a null service handle is skipped, a device whose init step fails is skipped,
and each remaining name is registered as a `DriverDevice`. `getService`
models `V1_0::IDevice::getService(name)` (whether a handle was obtained) and
`driverOk` models whether `DriverDevice::initialize()` succeeds for it. -/
def registeredDrivers (names : List String) (getService : String → Bool)
    (driverOk : String → Bool) : List Dev :=
  (names.filter (fun name => getService name && driverOk name)).map Dev.driver

/-- Embedding of `DeviceManager::findAvailableDevices` (Manager.cpp:728-754),
returning the final `mDevices` list (empty at construction). `manager`
models `hardware::defaultServiceManager1_2()`: `none` is a null service
manager, upon which the function logs and returns with the device list left
empty; `some names` carries the interface names the manifest advertises. The
CPU fallback device is appended after the discovery loop. -/
def DeviceManager.findAvailableDevices (manager : Option (List String))
    (getService : String → Bool) (driverOk : String → Bool) : List Dev :=
  match manager with
  | none => []
  | some names => registeredDrivers names getService driverOk ++ [Dev.cpu]

/-- A concrete argument list (a 1-byte pointer argument, a memory-backed
argument, a 4-byte pointer argument) used by the witnesses. -/
def sampleArgs : List ModelArgumentInfo :=
  [{ state := ArgState.POINTER, locationAndLength := ⟨9, 9, 1⟩, buffer := [7] },
   { state := ArgState.MEMORY, locationAndLength := ⟨0, 0, 2⟩, buffer := [] },
   { state := ArgState.POINTER, locationAndLength := ⟨9, 9, 4⟩, buffer := [1, 2, 3, 4] }]

/-- A completion result carrying the "output buffer too small" status. -/
def sampleOIS : ExecutionResult :=
  { status := ErrorStatus.OUTPUT_INSUFFICIENT_SIZE, outputShapes := [[2]],
    timing := ⟨0, 0⟩ }

/-- A successful completion result. -/
def sampleOk : ExecutionResult :=
  { status := ErrorStatus.NONE, outputShapes := [], timing := ⟨0, 0⟩ }

/-- A concrete execution environment whose burst path reports
OUTPUT_INSUFFICIENT_SIZE without requesting a fallback. -/
def sampleEnvOIS : ExecEnv :=
  { inputs := [], outputs := sampleArgs, memoriesSize := 0,
    ashmemCreate := fun _ => 0,
    burst := some (sampleOIS, false),
    syncExecHal := true,
    syncResult := sampleOk,
    asyncLaunchIsOk := true,
    asyncLaunchStatus := ErrorStatus.NONE,
    asyncResult := sampleOk,
    outputPool := fun _ => 0 }

/-- A concrete execution environment whose asynchronous launch reports a
non-success status. -/
def sampleEnvLaunchFail : ExecEnv :=
  { inputs := [], outputs := [], memoriesSize := 0,
    ashmemCreate := fun _ => 0,
    burst := none,
    syncExecHal := false,
    syncResult := sampleOk,
    asyncLaunchIsOk := true,
    asyncLaunchStatus := ErrorStatus.GENERAL_FAILURE,
    asyncResult := sampleOk,
    outputPool := fun _ => 0 }

/-!
## Theorems
-/

theorem naturalAlignment_pos (len : Nat) : 0 < naturalAlignment len := by
  unfold naturalAlignment
  split
  · omega
  · split <;> omega

theorem naturalAlignment_dvd (len : Nat) : naturalAlignment len ∣ 2 ^ 32 := by
  unfold naturalAlignment
  split
  · exact one_dvd _
  · split
    · exact ⟨2 ^ 31, by norm_num⟩
    · exact ⟨2 ^ 30, by norm_num⟩

theorem align_sub_mod (i a : Nat) (hpos : 0 < a) :
    (i + (a - i % a) % a) % a = 0 := by
  have hlt : i % a < a := Nat.mod_lt _ hpos
  rcases Nat.eq_zero_or_pos (i % a) with h0 | h0
  · rw [h0, Nat.sub_zero, Nat.mod_self, Nat.add_zero]
    exact h0
  · have hsub : (a - i % a) % a = a - i % a := Nat.mod_eq_of_lt (by omega)
    rw [hsub]
    have h2 : i + (a - i % a) = a * (i / a + 1) := by
      rw [Nat.mul_add, Nat.mul_one]
      have h3 := Nat.div_add_mod i a
      omega
    rw [h2, Nat.mul_mod_right]

/-- Padding the running total by `alignBytesNeeded` brings it to the natural
alignment boundary, also through the `uint32_t` narrowing of the index. -/
theorem align_adds_to_boundary (i len : Nat) :
    (i + alignBytesNeeded (i % 2 ^ 32) len) % naturalAlignment len = 0 := by
  unfold alignBytesNeeded
  rw [Nat.mod_mod_of_dvd i (naturalAlignment_dvd len)]
  exact align_sub_mod i (naturalAlignment len) (naturalAlignment_pos len)

/-- The recorded offset (the padded total, narrowed to `uint32_t`) is aligned. -/
theorem offset_aligned (i len : Nat) :
    (i + alignBytesNeeded (i % 2 ^ 32) len) % 2 ^ 32 % naturalAlignment len = 0 := by
  rw [Nat.mod_mod_of_dvd _ (naturalAlignment_dvd len)]
  exact align_adds_to_boundary i len

theorem layout_fst_cons_pointer (npi t : Nat) (info : ModelArgumentInfo)
    (rest : List ModelArgumentInfo) (h : info.state = ArgState.POINTER) :
    (layoutPointerArguments npi t (info :: rest)).1 =
      (layoutPointerArguments npi
        (t + alignBytesNeeded (t % 2 ^ 32) info.locationAndLength.length +
          info.locationAndLength.length) rest).1 := by
  simp [layoutPointerArguments, h]

theorem layout_snd_cons_pointer (npi t : Nat) (info : ModelArgumentInfo)
    (rest : List ModelArgumentInfo) (h : info.state = ArgState.POINTER) :
    (layoutPointerArguments npi t (info :: rest)).2 =
      { info with locationAndLength :=
          { info.locationAndLength with
            poolIndex := npi,
            offset := (t + alignBytesNeeded (t % 2 ^ 32)
              info.locationAndLength.length) % 2 ^ 32 } } ::
        (layoutPointerArguments npi
          (t + alignBytesNeeded (t % 2 ^ 32) info.locationAndLength.length +
            info.locationAndLength.length) rest).2 := by
  simp [layoutPointerArguments, h]

theorem layout_fst_cons_other (npi t : Nat) (info : ModelArgumentInfo)
    (rest : List ModelArgumentInfo) (h : ¬ info.state = ArgState.POINTER) :
    (layoutPointerArguments npi t (info :: rest)).1 =
      (layoutPointerArguments npi t rest).1 := by
  simp [layoutPointerArguments, h]

theorem layout_snd_cons_other (npi t : Nat) (info : ModelArgumentInfo)
    (rest : List ModelArgumentInfo) (h : ¬ info.state = ArgState.POINTER) :
    (layoutPointerArguments npi t (info :: rest)).2 =
      info :: (layoutPointerArguments npi t rest).2 := by
  simp [layoutPointerArguments, h]

theorem pointerLocs_cons_pointer (info : ModelArgumentInfo)
    (l : List ModelArgumentInfo) (h : info.state = ArgState.POINTER) :
    pointerLocs (info :: l) = info.locationAndLength :: pointerLocs l := by
  simp [pointerLocs, List.filter_cons, h]

theorem pointerLocs_cons_other (info : ModelArgumentInfo)
    (l : List ModelArgumentInfo) (h : ¬ info.state = ArgState.POINTER) :
    pointerLocs (info :: l) = pointerLocs l := by
  simp [pointerLocs, List.filter_cons, h]

/-- The pointer locations produced by the scan on a pointer-state head. -/
theorem pointerLocs_layout_cons_pointer (npi t : Nat) (info : ModelArgumentInfo)
    (rest : List ModelArgumentInfo) (h : info.state = ArgState.POINTER) :
    pointerLocs (layoutPointerArguments npi t (info :: rest)).2 =
      (⟨npi, (t + alignBytesNeeded (t % 2 ^ 32) info.locationAndLength.length) % 2 ^ 32,
          info.locationAndLength.length⟩ : DataLocation) ::
        pointerLocs (layoutPointerArguments npi
          (t + alignBytesNeeded (t % 2 ^ 32) info.locationAndLength.length +
            info.locationAndLength.length) rest).2 := by
  rw [layout_snd_cons_pointer npi t info rest h]
  simp [pointerLocs, List.filter_cons, h]

/-- The pointer locations are untouched by a non-pointer head. -/
theorem pointerLocs_layout_cons_other (npi t : Nat) (info : ModelArgumentInfo)
    (rest : List ModelArgumentInfo) (h : ¬ info.state = ArgState.POINTER) :
    pointerLocs (layoutPointerArguments npi t (info :: rest)).2 =
      pointerLocs (layoutPointerArguments npi t rest).2 := by
  rw [layout_snd_cons_other npi t info rest h]
  rw [pointerLocs_cons_other _ _ h]

/-- The running total of the layout scan never decreases. -/
theorem layout_le (npi : Nat) (args : List ModelArgumentInfo) :
    ∀ t : Nat, t ≤ (layoutPointerArguments npi t args).1 := by
  induction args with
  | nil => intro t; exact Nat.le_refl t
  | cons info rest ih =>
    intro t
    by_cases h : info.state = ArgState.POINTER
    · rw [layout_fst_cons_pointer npi t info rest h]
      exact le_trans (by omega)
        (ih (t + alignBytesNeeded (t % 2 ^ 32) info.locationAndLength.length +
          info.locationAndLength.length))
    · rw [layout_fst_cons_other npi t info rest h]
      exact ih t

/-- The layout scan never touches the caller-owned buffers. -/
theorem layout_buffers (npi : Nat) (args : List ModelArgumentInfo) :
    ∀ t : Nat,
      ((layoutPointerArguments npi t args).2).map (fun info => info.buffer) =
        args.map (fun info => info.buffer) := by
  induction args with
  | nil => intro t; rfl
  | cons info rest ih =>
    intro t
    by_cases h : info.state = ArgState.POINTER
    · rw [layout_snd_cons_pointer npi t info rest h]
      simp [ih]
    · rw [layout_snd_cons_other npi t info rest h]
      simp [ih]

/-- Unconditional layout facts: every pointer argument gets the entry pool
index, an offset aligned to its natural alignment, and a slice that fits
inside the final total. -/
theorem layout_basic (npi : Nat) (args : List ModelArgumentInfo) :
    ∀ t : Nat, ∀ loc ∈ pointerLocs (layoutPointerArguments npi t args).2,
      loc.poolIndex = npi ∧ loc.offset % naturalAlignment loc.length = 0 ∧
      loc.offset + loc.length ≤ (layoutPointerArguments npi t args).1 := by
  induction args with
  | nil => intro t loc hloc; simp [layoutPointerArguments, pointerLocs] at hloc
  | cons info rest ih =>
    intro t loc hloc
    by_cases h : info.state = ArgState.POINTER
    · rw [pointerLocs_layout_cons_pointer npi t info rest h] at hloc
      rw [layout_fst_cons_pointer npi t info rest h]
      rcases List.mem_cons.mp hloc with hhd | htl
      · subst hhd
        refine ⟨rfl, offset_aligned t info.locationAndLength.length, ?_⟩
        dsimp only
        have h1 : (t + alignBytesNeeded (t % 2 ^ 32) info.locationAndLength.length) % 2 ^ 32 ≤
            t + alignBytesNeeded (t % 2 ^ 32) info.locationAndLength.length :=
          Nat.mod_le _ _
        have h2 := layout_le npi rest
          (t + alignBytesNeeded (t % 2 ^ 32) info.locationAndLength.length +
            info.locationAndLength.length)
        omega
      · exact ih _ loc htl
    · rw [pointerLocs_layout_cons_other npi t info rest h] at hloc
      rw [layout_fst_cons_other npi t info rest h]
      exact ih t loc hloc

/-- Conditional layout facts, holding whenever the final total stays below
2^32 (so no `uint32_t` narrowing truncates): recorded offsets are
non-decreasing in encountered order, each is at least the starting total, and
the final total is the starting total or the end of some pointer argument's
slice. -/
theorem layout_mono (npi : Nat) (args : List ModelArgumentInfo) :
    ∀ t : Nat, (layoutPointerArguments npi t args).1 < 2 ^ 32 →
      List.Chain' (fun x y => x ≤ y)
        ((pointerLocs (layoutPointerArguments npi t args).2).map DataLocation.offset) ∧
      (∀ loc ∈ pointerLocs (layoutPointerArguments npi t args).2, t ≤ loc.offset) ∧
      ((layoutPointerArguments npi t args).1 = t ∨
        ∃ loc ∈ pointerLocs (layoutPointerArguments npi t args).2,
          (layoutPointerArguments npi t args).1 = loc.offset + loc.length) := by
  induction args with
  | nil =>
    intro t _
    refine ⟨?_, ?_, Or.inl rfl⟩
    · simp [layoutPointerArguments, pointerLocs]
    · simp [layoutPointerArguments, pointerLocs]
  | cons info rest ih =>
    intro t hlt
    by_cases h : info.state = ArgState.POINTER
    · rw [layout_fst_cons_pointer npi t info rest h] at hlt ⊢
      rw [pointerLocs_layout_cons_pointer npi t info rest h]
      set len := info.locationAndLength.length with hlen
      set nd := alignBytesNeeded (t % 2 ^ 32) len with hnd
      have htail := layout_le npi rest (t + nd + len)
      have ht1 : t + nd < 2 ^ 32 := by omega
      have hoff : (t + nd) % 2 ^ 32 = t + nd := Nat.mod_eq_of_lt ht1
      obtain ⟨ch, ge, mi⟩ := ih (t + nd + len) hlt
      refine ⟨?_, ?_, ?_⟩
      · rw [List.map_cons, List.chain'_cons']
        refine ⟨?_, ch⟩
        intro b hb
        rw [List.head?_map] at hb
        cases ho : (pointerLocs (layoutPointerArguments npi (t + nd + len) rest).2).head? with
        | none => rw [ho] at hb; simp at hb
        | some a =>
          rw [ho] at hb
          simp at hb
          subst hb
          have ha : a ∈ pointerLocs (layoutPointerArguments npi (t + nd + len) rest).2 :=
            List.mem_of_mem_head? (by rw [ho]; rfl)
          have hga := ge a ha
          dsimp only
          omega
      · intro loc hloc
        rcases List.mem_cons.mp hloc with hhd | htl2
        · subst hhd
          dsimp only
          omega
        · have := ge loc htl2
          omega
      · rcases mi with hmi | ⟨loc, hmem, heq⟩
        · refine Or.inr ⟨⟨npi, (t + nd) % 2 ^ 32, len⟩, List.mem_cons_self _ _, ?_⟩
          dsimp only
          omega
        · exact Or.inr ⟨loc, List.mem_cons_of_mem _ hmem, heq⟩
    · rw [layout_fst_cons_other npi t info rest h] at hlt ⊢
      rw [pointerLocs_layout_cons_other npi t info rest h]
      exact ih t hlt

/-- The argument rewriting performed by allocatePointerArgumentsToPool is the
layout scan's, on every return path. -/
theorem alloc_args_eq (create : Nat → Int) (msize : Nat)
    (args : List ModelArgumentInfo) :
    (allocatePointerArgumentsToPool create msize args).args =
      (layoutPointerArguments msize 0 args).2 := by
  unfold allocatePointerArgumentsToPool
  dsimp only
  split
  · rfl
  · split
    · rfl
    · split
      · rfl
      · rfl

/-- A created pool's size is exactly the scan's final total, which is then
within the 32-bit range. -/
theorem alloc_pool_some (create : Nat → Int) (msize : Nat)
    (args : List ModelArgumentInfo) (sz : Nat)
    (h : (allocatePointerArgumentsToPool create msize args).pool = some sz) :
    (layoutPointerArguments msize 0 args).1 = sz ∧ sz ≤ 0xFFFFFFFF := by
  by_cases h1 : (layoutPointerArguments msize 0 args).1 > 0xFFFFFFFF
  · exfalso
    have hn : (allocatePointerArgumentsToPool create msize args).pool = none := by
      simp [allocatePointerArgumentsToPool, h1]
    rw [hn] at h
    exact Option.noConfusion h
  · by_cases h2 : (layoutPointerArguments msize 0 args).1 = 0
    · exfalso
      have hn : (allocatePointerArgumentsToPool create msize args).pool = none := by
        simp [allocatePointerArgumentsToPool, h1, h2]
      rw [hn] at h
      exact Option.noConfusion h
    · by_cases h3 : create (layoutPointerArguments msize 0 args).1 = ANEURALNETWORKS_NO_ERROR
      · have hs : (allocatePointerArgumentsToPool create msize args).pool =
            some (layoutPointerArguments msize 0 args).1 := by
          simp [allocatePointerArgumentsToPool, h1, h2, h3]
        rw [hs] at h
        have heq := Option.some.inj h
        exact ⟨heq, by omega⟩
      · exfalso
        have hn : (allocatePointerArgumentsToPool create msize args).pool = none := by
          simp [allocatePointerArgumentsToPool, h1, h2, h3]
        rw [hn] at h
        exact Option.noConfusion h

/-- Claim C2: when allocatePointerArgumentsToPool creates a pool, the
computed layout has offsets that are non-decreasing in encountered order,
each pointer argument's offset is aligned to its natural alignment (the
align(offset, length) rule), each slice ends within the pool length, the pool
length is the minimal value covering every slice, and every pointer argument
receives the tracker's size at entry as its pool index. -/
theorem C2_alloc_pool_layout (create : Nat → Int) (msize : Nat)
    (args : List ModelArgumentInfo) (sz : Nat)
    (h : (allocatePointerArgumentsToPool create msize args).pool = some sz) :
    List.Chain' (fun x y => x ≤ y)
      ((pointerLocs (allocatePointerArgumentsToPool create msize args).args).map
        DataLocation.offset) ∧
    (∀ loc ∈ pointerLocs (allocatePointerArgumentsToPool create msize args).args,
      loc.poolIndex = msize ∧ loc.offset % naturalAlignment loc.length = 0 ∧
      loc.offset + loc.length ≤ sz) ∧
    (∀ bound : Nat,
      (∀ loc ∈ pointerLocs (allocatePointerArgumentsToPool create msize args).args,
        loc.offset + loc.length ≤ bound) →
      sz ≤ bound) := by
  obtain ⟨htot, hrange⟩ := alloc_pool_some create msize args sz h
  have hlt : (layoutPointerArguments msize 0 args).1 < 2 ^ 32 := by omega
  obtain ⟨ch, ge, mi⟩ := layout_mono msize args 0 hlt
  have hb := layout_basic msize args 0
  rw [alloc_args_eq create msize args]
  refine ⟨ch, ?_, ?_⟩
  · intro loc hloc
    obtain ⟨hpi, hal, hle⟩ := hb loc hloc
    exact ⟨hpi, hal, by omega⟩
  · intro bound hbound
    rcases mi with hmi | ⟨loc, hmem, heq⟩
    · omega
    · have := hbound loc hmem
      omega

/-- Witness for C2 at a 1-byte and a 4-byte pointer argument with a
memory-backed argument in between: the pool is 8 bytes. -/
theorem C2_alloc_pool_layout_witness :
    (allocatePointerArgumentsToPool (fun _ => (0 : Int)) 3 sampleArgs).pool = some 8 ∧
    (List.Chain' (fun x y => x ≤ y)
      ((pointerLocs (allocatePointerArgumentsToPool (fun _ => (0 : Int)) 3 sampleArgs).args).map
        DataLocation.offset) ∧
    (∀ loc ∈ pointerLocs (allocatePointerArgumentsToPool (fun _ => (0 : Int)) 3 sampleArgs).args,
      loc.poolIndex = 3 ∧ loc.offset % naturalAlignment loc.length = 0 ∧
      loc.offset + loc.length ≤ 8) ∧
    (∀ bound : Nat,
      (∀ loc ∈ pointerLocs (allocatePointerArgumentsToPool (fun _ => (0 : Int)) 3 sampleArgs).args,
        loc.offset + loc.length ≤ bound) →
      8 ≤ bound)) :=
  ⟨by decide, C2_alloc_pool_layout (fun _ => (0 : Int)) 3 sampleArgs 8 (by decide)⟩

/-- Claim C1: for every graph and driver-backed device,
`getSupportedOperations` returns a vector whose length equals the graph's
operation count, and a failed backend call or a wrong-length backend reply
collapses the whole result to all-false of that correct length, with no hard
failure propagated. -/
theorem C1_getSupportedOperations_length (n : Nat) (backend : ErrorStatus × List Bool) :
    (DriverDevice.getSupportedOperations n backend).length = n ∧
    ((backend.1 ≠ ErrorStatus.NONE ∨ backend.2.length ≠ n) →
      DriverDevice.getSupportedOperations n backend = List.replicate n false) := by
  rcases backend with ⟨status, ops⟩
  by_cases h1 : status = ErrorStatus.NONE <;> by_cases h2 : ops.length = n <;>
    simp [DriverDevice.getSupportedOperations, h1, h2]

/-- Witness for C1 at a backend reply carrying a failure status. -/
theorem C1_getSupportedOperations_length_witness :
    (DriverDevice.getSupportedOperations 2 (ErrorStatus.GENERAL_FAILURE, [true])).length = 2 ∧
    DriverDevice.getSupportedOperations 2 (ErrorStatus.GENERAL_FAILURE, [true]) =
      List.replicate 2 false :=
  ⟨(C1_getSupportedOperations_length 2 (ErrorStatus.GENERAL_FAILURE, [true])).1,
   (C1_getSupportedOperations_length 2 (ErrorStatus.GENERAL_FAILURE, [true])).2
     (Or.inl (by decide))⟩

/-- Claim C6: both prepareModel entry points reset the output to null and
produce a PreparedModel exactly when the backend reports a success status
paired with a non-null handle; any other combination yields the
OperationFailed code with a null output. -/
theorem C6_prepareModel_produces_iff (backend : ErrorStatus × Option Nat) :
    (DriverDevice.prepareModel backend = prepareModelCheck backend.1 backend.2 ∧
      DriverDevice.prepareModelFromCache backend = prepareModelCheck backend.1 backend.2) ∧
    ((prepareModelCheck backend.1 backend.2).2.isSome = true ↔
      backend.1 = ErrorStatus.NONE ∧ backend.2.isSome = true) ∧
    (¬(backend.1 = ErrorStatus.NONE ∧ backend.2.isSome = true) →
      prepareModelCheck backend.1 backend.2 = (ANEURALNETWORKS_OP_FAILED, none)) := by
  refine ⟨⟨rfl, rfl⟩, ?_, ?_⟩ <;>
  · rcases backend with ⟨status, pm⟩
    by_cases h : status = ErrorStatus.NONE <;> cases pm <;>
      simp [prepareModelCheck, h]

/-- Witness for C6 at a backend reply with a failure status and a non-null
handle. -/
theorem C6_prepareModel_produces_iff_witness :
    prepareModelCheck ErrorStatus.GENERAL_FAILURE (some 7) =
      (ANEURALNETWORKS_OP_FAILED, none) :=
  (C6_prepareModel_produces_iff (ErrorStatus.GENERAL_FAILURE, some 7)).2.2 (by decide)

/-- Claim C8: a failed cache-file-count query, or either count exceeding the
fixed maximum, collapses the device's cache-file pair to (0, 0); and
isCachingSupported holds iff at least one component is positive. -/
theorem C8_clampNumCacheFiles_spec (status : ErrorStatus) (reported : Nat × Nat) :
    ((status ≠ ErrorStatus.NONE ∨ MAX_NUMBER_OF_CACHE_FILES < reported.1 ∨
        MAX_NUMBER_OF_CACHE_FILES < reported.2) →
      DriverDevice.clampNumCacheFiles status reported = (0, 0)) ∧
    (∀ p : Nat × Nat, Device.isCachingSupported p = true ↔ 0 < p.1 ∨ 0 < p.2) := by
  constructor
  · intro h
    unfold DriverDevice.clampNumCacheFiles
    by_cases hs : status = ErrorStatus.NONE
    · have h' : MAX_NUMBER_OF_CACHE_FILES < reported.1 ∨
          MAX_NUMBER_OF_CACHE_FILES < reported.2 := by tauto
      simp [hs, h']
    · simp [hs]
  · intro p
    simp [Device.isCachingSupported]

/-- Witness for C8 at a successful query reporting an out-of-range model-cache
count. -/
theorem C8_clampNumCacheFiles_spec_witness :
    DriverDevice.clampNumCacheFiles ErrorStatus.NONE (33, 1) = (0, 0) ∧
    (Device.isCachingSupported (0, 0) = true ↔ 0 < (0, 0).1 ∨ 0 < (0, 0).2) :=
  ⟨(C8_clampNumCacheFiles_spec ErrorStatus.NONE (33, 1)).1 (Or.inr (Or.inl (by decide))),
   (C8_clampNumCacheFiles_spec ErrorStatus.NONE (33, 1)).2 (0, 0)⟩

/-- Claim C4: a combined pointer-argument byte length (padding included)
above the 32-bit range makes allocatePointerArgumentsToPool fail with BadData
and add nothing to the memory tracker; a combined length of zero succeeds
with no pool created. -/
theorem C4_alloc_overflow_and_zero (create : Nat → Int) (msize : Nat)
    (args : List ModelArgumentInfo) :
    (0xFFFFFFFF < (layoutPointerArguments msize 0 args).1 →
      (allocatePointerArgumentsToPool create msize args).code = ANEURALNETWORKS_BAD_DATA ∧
      (allocatePointerArgumentsToPool create msize args).pool = none ∧
      (allocatePointerArgumentsToPool create msize args).memoriesSize = msize) ∧
    ((layoutPointerArguments msize 0 args).1 = 0 →
      (allocatePointerArgumentsToPool create msize args).code = ANEURALNETWORKS_NO_ERROR ∧
      (allocatePointerArgumentsToPool create msize args).pool = none ∧
      (allocatePointerArgumentsToPool create msize args).memoriesSize = msize) := by
  constructor
  · intro h
    simp [allocatePointerArgumentsToPool, h]
  · intro h
    simp [allocatePointerArgumentsToPool, h]

/-- Witness for C4: one pointer argument of length 2^32 overflows; an empty
argument list has zero combined length. -/
theorem C4_alloc_overflow_and_zero_witness :
    ((allocatePointerArgumentsToPool (fun _ => (0 : Int)) 5
        [{ state := ArgState.POINTER,
           locationAndLength := ⟨0, 0, 4294967296⟩, buffer := [] }]).code =
        ANEURALNETWORKS_BAD_DATA ∧
      (allocatePointerArgumentsToPool (fun _ => (0 : Int)) 5
        [{ state := ArgState.POINTER,
           locationAndLength := ⟨0, 0, 4294967296⟩, buffer := [] }]).pool = none ∧
      (allocatePointerArgumentsToPool (fun _ => (0 : Int)) 5
        [{ state := ArgState.POINTER,
           locationAndLength := ⟨0, 0, 4294967296⟩, buffer := [] }]).memoriesSize = 5) ∧
    ((allocatePointerArgumentsToPool (fun _ => (0 : Int)) 5 []).code =
        ANEURALNETWORKS_NO_ERROR ∧
      (allocatePointerArgumentsToPool (fun _ => (0 : Int)) 5 []).pool = none ∧
      (allocatePointerArgumentsToPool (fun _ => (0 : Int)) 5 []).memoriesSize = 5) :=
  ⟨(C4_alloc_overflow_and_zero (fun _ => (0 : Int)) 5
      [{ state := ArgState.POINTER,
         locationAndLength := ⟨0, 0, 4294967296⟩, buffer := [] }]).1 (by decide),
   (C4_alloc_overflow_and_zero (fun _ => (0 : Int)) 5 []).2 (by decide)⟩

/-- The pool layout rewrites pool indices and offsets but never the
caller-owned buffers. -/
theorem alloc_buffers (create : Nat → Int) (msize : Nat)
    (args : List ModelArgumentInfo) :
    ((allocatePointerArgumentsToPool create msize args).args).map
        (fun info => info.buffer) =
      args.map (fun info => info.buffer) := by
  rw [alloc_args_eq]
  exact layout_buffers msize args 0

/-- The execute epilogue always leaves the result on the completion signal. -/
theorem finishExecute_notified (env : ExecEnv) (outputs : List ModelArgumentInfo)
    (pc si ai : Bool) (res : ExecutionResult) :
    (finishExecute env outputs pc si ai res).notified = some res := by
  unfold finishExecute
  split_ifs <;> rfl

/-- The execute epilogue does not change which backend calls were made. -/
theorem finishExecute_invoked (env : ExecEnv) (outputs : List ModelArgumentInfo)
    (pc si ai : Bool) (res : ExecutionResult) :
    (finishExecute env outputs pc si ai res).syncInvoked = si ∧
    (finishExecute env outputs pc si ai res).asyncInvoked = ai := by
  unfold finishExecute
  split_ifs <;> exact ⟨rfl, rfl⟩

/-- Epilogue on an OUTPUT_INSUFFICIENT_SIZE completion: qualified success,
the callback is handed back, and no output copy-back runs. -/
theorem finishExecute_ois (env : ExecEnv) (outputs : List ModelArgumentInfo)
    (pc si ai : Bool) (res : ExecutionResult)
    (hs : res.status = ErrorStatus.OUTPUT_INSUFFICIENT_SIZE) :
    (finishExecute env outputs pc si ai res).code = ANEURALNETWORKS_NO_ERROR ∧
    (finishExecute env outputs pc si ai res).syncCallback = some res ∧
    (finishExecute env outputs pc si ai res).outputsCopiedBack = false ∧
    (finishExecute env outputs pc si ai res).outputBuffers =
      outputs.map (fun info => info.buffer) := by
  have h1 : res.status ≠ ErrorStatus.NONE := by rw [hs]; intro hc; cases hc
  unfold finishExecute
  rw [if_pos h1, if_pos hs]
  exact ⟨rfl, rfl, rfl, rfl⟩

/-- Epilogue on any other non-success completion: a hard failure code. -/
theorem finishExecute_failure (env : ExecEnv) (outputs : List ModelArgumentInfo)
    (pc si ai : Bool) (res : ExecutionResult)
    (h1 : res.status ≠ ErrorStatus.NONE)
    (h2 : res.status ≠ ErrorStatus.OUTPUT_INSUFFICIENT_SIZE) :
    (finishExecute env outputs pc si ai res).code = ANEURALNETWORKS_OP_FAILED := by
  unfold finishExecute
  rw [if_pos h1, if_neg h2]
  show convertErrorStatusToResultCode res.status = ANEURALNETWORKS_OP_FAILED
  unfold convertErrorStatusToResultCode
  rw [if_neg h1]

/-- Every run of DriverPreparedModel::execute either returns early — nothing
notified, no wait, no copy-back, a null callback, caller buffers untouched —
or runs the epilogue on some completion result for the laid-out outputs. -/
theorem execute_cases (env : ExecEnv) :
    ((DriverPreparedModel.execute env).notified = none ∧
      (DriverPreparedModel.execute env).waited = false ∧
      (DriverPreparedModel.execute env).outputsCopiedBack = false ∧
      (DriverPreparedModel.execute env).syncCallback = none ∧
      (DriverPreparedModel.execute env).outputBuffers =
        env.outputs.map (fun info => info.buffer)) ∨
    (∃ si ai res,
      DriverPreparedModel.execute env =
        finishExecute env
          (allocatePointerArgumentsToPool env.ashmemCreate
            (allocatePointerArgumentsToPool env.ashmemCreate env.memoriesSize
              env.inputs).memoriesSize env.outputs).args
          (allocatePointerArgumentsToPool env.ashmemCreate
            (allocatePointerArgumentsToPool env.ashmemCreate env.memoriesSize
              env.inputs).memoriesSize env.outputs).pool.isSome si ai res) := by
  unfold DriverPreparedModel.execute
  dsimp only
  by_cases h1 : (allocatePointerArgumentsToPool env.ashmemCreate env.memoriesSize
      env.inputs).code = ANEURALNETWORKS_NO_ERROR
  case neg =>
    rw [if_pos h1]
    exact Or.inl ⟨rfl, rfl, rfl, rfl, rfl⟩
  case pos =>
    rw [if_neg (not_not_intro h1)]
    by_cases h2 : (allocatePointerArgumentsToPool env.ashmemCreate
        (allocatePointerArgumentsToPool env.ashmemCreate env.memoriesSize
          env.inputs).memoriesSize env.outputs).code = ANEURALNETWORKS_NO_ERROR
    case neg =>
      rw [if_pos h2]
      refine Or.inl ⟨rfl, rfl, rfl, rfl, ?_⟩
      exact alloc_buffers env.ashmemCreate _ env.outputs
    case pos =>
      rw [if_neg (not_not_intro h2)]
      cases hb : env.burst with
      | some p =>
        obtain ⟨burstRes, fb⟩ := p
        dsimp only
        by_cases hfb : fb = false
        case pos =>
          rw [if_pos hfb]
          exact Or.inr ⟨false, false, burstRes, rfl⟩
        case neg =>
          rw [if_neg hfb]
          unfold syncOrAsyncDispatch
          by_cases hs : env.syncExecHal
          · rw [if_pos hs]
            exact Or.inr ⟨true, false, env.syncResult, rfl⟩
          · rw [if_neg hs]
            by_cases hl : env.asyncLaunchIsOk = false ∨
                env.asyncLaunchStatus ≠ ErrorStatus.NONE
            · rw [if_pos hl]
              refine Or.inl ⟨rfl, rfl, rfl, rfl, ?_⟩
              exact alloc_buffers env.ashmemCreate _ env.outputs
            · rw [if_neg hl]
              exact Or.inr ⟨false, true, env.asyncResult, rfl⟩
      | none =>
        dsimp only
        unfold syncOrAsyncDispatch
        by_cases hs : env.syncExecHal
        · rw [if_pos hs]
          exact Or.inr ⟨true, false, env.syncResult, rfl⟩
        · rw [if_neg hs]
          by_cases hl : env.asyncLaunchIsOk = false ∨
              env.asyncLaunchStatus ≠ ErrorStatus.NONE
          · rw [if_pos hl]
            refine Or.inl ⟨rfl, rfl, rfl, rfl, ?_⟩
            exact alloc_buffers env.ashmemCreate _ env.outputs
          · rw [if_neg hl]
            exact Or.inr ⟨false, true, env.asyncResult, rfl⟩

/-- Claim C7 is false as stated: when the default service manager cannot be
obtained, `findAvailableDevices` returns before the CPU fallback device is
registered, so the device list is empty and the reference device is not its
last entry. -/
theorem C7_counterexample :
    DeviceManager.findAvailableDevices none (fun _ => true) (fun _ => true) = [] ∧
    (DeviceManager.findAvailableDevices none (fun _ => true) (fun _ => true)).getLast? ≠
      some DeviceManager.getCpuDevice := by
  constructor
  · rfl
  · decide

/-- Claim C7 amended: provided the service-manager handle is obtained, the
CPU reference device is always the last entry of the device list; in
particular, when discovery registers zero usable driver devices the list is
exactly the reference-device singleton returned by getCpuDevice. -/
theorem C7_amended_cpu_last (names : List String) (getService driverOk : String → Bool) :
    (DeviceManager.findAvailableDevices (some names) getService driverOk).getLast? =
      some DeviceManager.getCpuDevice ∧
    (registeredDrivers names getService driverOk = [] →
      DeviceManager.findAvailableDevices (some names) getService driverOk =
        [DeviceManager.getCpuDevice]) := by
  constructor
  · simp [DeviceManager.findAvailableDevices, DeviceManager.getCpuDevice,
      List.getLast?_concat]
  · intro h
    simp [DeviceManager.findAvailableDevices, h, DeviceManager.getCpuDevice]

/-- Witness for C7's amended claim at an empty advertised-name list. -/
theorem C7_amended_cpu_last_witness :
    (DeviceManager.findAvailableDevices (some []) (fun _ => true) (fun _ => true)).getLast? =
      some DeviceManager.getCpuDevice ∧
    DeviceManager.findAvailableDevices (some []) (fun _ => true) (fun _ => true) =
      [DeviceManager.getCpuDevice] :=
  ⟨(C7_amended_cpu_last [] (fun _ => true) (fun _ => true)).1,
   (C7_amended_cpu_last [] (fun _ => true) (fun _ => true)).2 (by decide)⟩

/-- Claim C3: when the completion signal carries OUTPUT_INSUFFICIENT_SIZE,
execute() returns NoError and hands back the completion signal carrying that
status; any other non-success status makes execute() return a failure code. -/
theorem C3_execute_output_insufficient (env : ExecEnv) (res : ExecutionResult)
    (h : (DriverPreparedModel.execute env).notified = some res) :
    (res.status = ErrorStatus.OUTPUT_INSUFFICIENT_SIZE →
      (DriverPreparedModel.execute env).code = ANEURALNETWORKS_NO_ERROR ∧
      (DriverPreparedModel.execute env).syncCallback = some res) ∧
    (res.status ≠ ErrorStatus.NONE →
      res.status ≠ ErrorStatus.OUTPUT_INSUFFICIENT_SIZE →
      (DriverPreparedModel.execute env).code ≠ ANEURALNETWORKS_NO_ERROR) := by
  rcases execute_cases env with ⟨hn, _⟩ | ⟨si, ai, res', heq⟩
  · rw [hn] at h
    exact Option.noConfusion h
  · rw [heq, finishExecute_notified] at h
    have hres : res' = res := Option.some.inj h
    subst hres
    constructor
    · intro hs
      obtain ⟨hc, hcb, _, _⟩ := finishExecute_ois env _ _ si ai res' hs
      rw [heq]
      exact ⟨hc, hcb⟩
    · intro hne hno
      rw [heq, finishExecute_failure env _ _ si ai res' hne hno]
      decide

/-- Witness for C3 at a burst execution reporting OUTPUT_INSUFFICIENT_SIZE. -/
theorem C3_execute_output_insufficient_witness :
    (DriverPreparedModel.execute sampleEnvOIS).code = ANEURALNETWORKS_NO_ERROR ∧
    (DriverPreparedModel.execute sampleEnvOIS).syncCallback = some sampleOIS :=
  (C3_execute_output_insufficient sampleEnvOIS sampleOIS (by decide)).1 (by decide)

/-- Claim C10: on the qualified-success path where the completion signal
carries OUTPUT_INSUFFICIENT_SIZE, execute() returns success but never runs
the output-materialization step: every caller-owned output buffer is left
unchanged. -/
theorem C10_execute_ois_frame (env : ExecEnv) (res : ExecutionResult)
    (h : (DriverPreparedModel.execute env).notified = some res)
    (hs : res.status = ErrorStatus.OUTPUT_INSUFFICIENT_SIZE) :
    (DriverPreparedModel.execute env).code = ANEURALNETWORKS_NO_ERROR ∧
    (DriverPreparedModel.execute env).outputsCopiedBack = false ∧
    (DriverPreparedModel.execute env).outputBuffers =
      env.outputs.map (fun info => info.buffer) := by
  rcases execute_cases env with ⟨hn, _⟩ | ⟨si, ai, res', heq⟩
  · rw [hn] at h
    exact Option.noConfusion h
  · rw [heq, finishExecute_notified] at h
    have hres : res' = res := Option.some.inj h
    subst hres
    obtain ⟨hc, _, hcb, hbuf⟩ := finishExecute_ois env _ _ si ai res' hs
    rw [heq]
    refine ⟨hc, hcb, ?_⟩
    rw [hbuf]
    exact alloc_buffers env.ashmemCreate _ env.outputs

/-- Witness for C10: with pointer-state outputs and an insufficient-size
completion, the caller buffers come back verbatim. -/
theorem C10_execute_ois_frame_witness :
    (DriverPreparedModel.execute sampleEnvOIS).code = ANEURALNETWORKS_NO_ERROR ∧
    (DriverPreparedModel.execute sampleEnvOIS).outputsCopiedBack = false ∧
    (DriverPreparedModel.execute sampleEnvOIS).outputBuffers =
      sampleEnvOIS.outputs.map (fun info => info.buffer) :=
  C10_execute_ois_frame sampleEnvOIS sampleOIS (by decide) (by decide)

/-- Claim C5: with a burst channel supplied and the pool layouts succeeding,
a burst reply without fallback is delivered verbatim to the completion signal
and neither the synchronous nor the asynchronous backend path is invoked; a
burst reply requesting fallback leads to the completion signal holding
exactly the result of the subsequent synchronous or asynchronous call. -/
theorem C5_execute_burst_fallback (env : ExecEnv) (burstRes : ExecutionResult)
    (fb : Bool) (hb : env.burst = some (burstRes, fb))
    (h1 : (allocatePointerArgumentsToPool env.ashmemCreate env.memoriesSize
        env.inputs).code = ANEURALNETWORKS_NO_ERROR)
    (h2 : (allocatePointerArgumentsToPool env.ashmemCreate
        (allocatePointerArgumentsToPool env.ashmemCreate env.memoriesSize
          env.inputs).memoriesSize env.outputs).code = ANEURALNETWORKS_NO_ERROR) :
    (fb = false →
      (DriverPreparedModel.execute env).notified = some burstRes ∧
      (DriverPreparedModel.execute env).syncInvoked = false ∧
      (DriverPreparedModel.execute env).asyncInvoked = false) ∧
    (fb = true →
      (env.syncExecHal = true →
        (DriverPreparedModel.execute env).notified = some env.syncResult ∧
        (DriverPreparedModel.execute env).syncInvoked = true) ∧
      (env.syncExecHal = false → env.asyncLaunchIsOk = true →
        env.asyncLaunchStatus = ErrorStatus.NONE →
        (DriverPreparedModel.execute env).notified = some env.asyncResult ∧
        (DriverPreparedModel.execute env).asyncInvoked = true)) := by
  unfold DriverPreparedModel.execute
  dsimp only
  rw [if_neg (not_not_intro h1), if_neg (not_not_intro h2), hb]
  dsimp only
  constructor
  · intro hfb
    rw [if_pos hfb]
    exact ⟨finishExecute_notified env _ _ false false burstRes,
      (finishExecute_invoked env _ _ false false burstRes).1,
      (finishExecute_invoked env _ _ false false burstRes).2⟩
  · intro hfb
    rw [if_neg (by simp [hfb])]
    unfold syncOrAsyncDispatch
    constructor
    · intro hs
      rw [if_pos hs]
      exact ⟨finishExecute_notified env _ _ true false env.syncResult,
        (finishExecute_invoked env _ _ true false env.syncResult).1⟩
    · intro hs hok hst
      rw [if_neg (by simp [hs]), if_neg (by simp [hok, hst])]
      exact ⟨finishExecute_notified env _ _ false true env.asyncResult,
        (finishExecute_invoked env _ _ false true env.asyncResult).2⟩

/-- Witness for C5 at a burst reply that does not request a fallback. -/
theorem C5_execute_burst_fallback_witness :
    (DriverPreparedModel.execute sampleEnvOIS).notified = some sampleOIS ∧
    (DriverPreparedModel.execute sampleEnvOIS).syncInvoked = false ∧
    (DriverPreparedModel.execute sampleEnvOIS).asyncInvoked = false :=
  (C5_execute_burst_fallback sampleEnvOIS sampleOIS false (by decide) (by decide)
    (by decide)).1 rfl

/-- A failed asynchronous launch makes the dispatch block return immediately:
operation-failed code, no wait, no copy-back, null callback. -/
theorem dispatch_launch_failure (env : ExecEnv) (outputs : List ModelArgumentInfo)
    (pc : Bool) (hs : env.syncExecHal = false)
    (hfail : env.asyncLaunchIsOk = false ∨ env.asyncLaunchStatus ≠ ErrorStatus.NONE) :
    (syncOrAsyncDispatch env outputs pc).code = ANEURALNETWORKS_OP_FAILED ∧
    (syncOrAsyncDispatch env outputs pc).waited = false ∧
    (syncOrAsyncDispatch env outputs pc).outputsCopiedBack = false ∧
    (syncOrAsyncDispatch env outputs pc).syncCallback = none ∧
    (syncOrAsyncDispatch env outputs pc).asyncInvoked = true := by
  unfold syncOrAsyncDispatch
  rw [if_neg (by simp [hs]), if_pos hfail]
  refine ⟨?_, rfl, rfl, rfl, rfl⟩
  dsimp only
  rcases hfail with hok | hst
  · rw [if_neg (by simp [hok])]
  · by_cases hok : env.asyncLaunchIsOk = true
    · rw [if_pos hok]
      unfold convertErrorStatusToResultCode
      rw [if_neg hst]
    · rw [if_neg hok]

/-- Claim C9: when the asynchronous path's launch reports a non-success
status, execute() returns immediately with an operation-failed error, without
waiting on the completion signal, without copying outputs back, and with the
synchronization-callback out-parameter still null. -/
theorem C9_execute_async_launch_failure (env : ExecEnv)
    (h1 : (allocatePointerArgumentsToPool env.ashmemCreate env.memoriesSize
        env.inputs).code = ANEURALNETWORKS_NO_ERROR)
    (h2 : (allocatePointerArgumentsToPool env.ashmemCreate
        (allocatePointerArgumentsToPool env.ashmemCreate env.memoriesSize
          env.inputs).memoriesSize env.outputs).code = ANEURALNETWORKS_NO_ERROR)
    (hburst : env.burst = none ∨ ∃ r, env.burst = some (r, true))
    (hs : env.syncExecHal = false)
    (hfail : env.asyncLaunchIsOk = false ∨ env.asyncLaunchStatus ≠ ErrorStatus.NONE) :
    (DriverPreparedModel.execute env).code = ANEURALNETWORKS_OP_FAILED ∧
    (DriverPreparedModel.execute env).waited = false ∧
    (DriverPreparedModel.execute env).outputsCopiedBack = false ∧
    (DriverPreparedModel.execute env).syncCallback = none ∧
    (DriverPreparedModel.execute env).asyncInvoked = true := by
  unfold DriverPreparedModel.execute
  dsimp only
  rw [if_neg (not_not_intro h1), if_neg (not_not_intro h2)]
  rcases hburst with hb | ⟨r, hb⟩
  · rw [hb]
    dsimp only
    exact dispatch_launch_failure env _ _ hs hfail
  · rw [hb]
    dsimp only
    rw [if_neg (by simp)]
    exact dispatch_launch_failure env _ _ hs hfail

/-- Witness for C9 at an asynchronous launch reporting GENERAL_FAILURE. -/
theorem C9_execute_async_launch_failure_witness :
    (DriverPreparedModel.execute sampleEnvLaunchFail).code = ANEURALNETWORKS_OP_FAILED ∧
    (DriverPreparedModel.execute sampleEnvLaunchFail).waited = false ∧
    (DriverPreparedModel.execute sampleEnvLaunchFail).outputsCopiedBack = false ∧
    (DriverPreparedModel.execute sampleEnvLaunchFail).syncCallback = none ∧
    (DriverPreparedModel.execute sampleEnvLaunchFail).asyncInvoked = true :=
  C9_execute_async_launch_failure sampleEnvLaunchFail (by decide) (by decide)
    (Or.inl (by decide)) (by decide) (Or.inr (by decide))

end NNRT
